import Mathlib

/-!
Verification of the authorization guard pipeline of a Telegram
group-management bot (module utils/decorators.py).

The guards are Python decorators wrapping async handlers.  Each wrapper
inspects the incoming update (caller, chat), the per-caller mutable
session store (context.user_data), and possibly a remote membership
lookup (context.bot.get_chat_member), and either invokes the wrapped
handler or short-circuits after sending a user-facing reply.

Shallow embedding conventions:
- A wrapper becomes a pure function from its inputs (optional caller,
  optional chat, session store, the current time, and the remote lookup
  modelled as a function returning Except) to a GuardResult recording
  whether the handler was invoked, the replies sent, the updated session
  store, and how many remote lookups were performed.
- Python exceptions are modelled with Except: a wrapper that can let an
  exception escape returns Except String GuardResult, and a caught
  exception is a match on the Except value of the failing operation.
- Python sets of strings become Finset String; the timestamps returned
  by time.time are modelled as integers (only their ordering and
  differences matter to the code).
- Reply texts are modelled as structured values (inductive Reply), one
  constructor per distinct reply in the source, carrying the data
  interpolated into the message.
-/

/-- A Telegram user as the guards see it: update.effective_user. -/
structure User where
  id : Int
  username : Option String
deriving DecidableEq, Repr

/-- Chat kinds relevant to the guards (chat.type in the source). -/
inductive ChatType
  | privateChat
  | group
  | supergroup
  | channel
deriving DecidableEq, Repr

/-- A Telegram chat as the guards see it: update.effective_chat. -/
structure Chat where
  id : Int
  type : ChatType
deriving DecidableEq, Repr

/-- Membership status returned by the remote get_chat_member lookup. -/
inductive MemberStatus
  | creator
  | administrator
  | member
  | restricted
  | leftChat
  | kicked
deriving DecidableEq, Repr

/-- The per-caller session store context.user_data.  Each field models one
key of the Python dict; none means the key is absent. -/
structure UserData where
  authenticated_user_id : Option Int
  authenticated_user_username : Option (Option String)
  permissions : Option (Finset String)
  access_level : Option Int
  rate_limits : Option (List (String × List Int))
deriving DecidableEq

/-- An empty session store: a caller with no cached data. -/
def UserData.empty : UserData :=
  ⟨none, none, none, none, none⟩

/-- Replies sent by the guards, one constructor per distinct reply text in
decorators.py, carrying the data interpolated into the message. -/
inductive Reply
  /-- Authentication failed. Please try again. -/
  | authFailed
  /-- You are not authorized to perform this action. -/
  | notAuthorized
  /-- You do not have permission to execute this command: the permission. -/
  | missingPermission (p : String)
  /-- Missing permissions: the joined missing set. -/
  | missingPermissions (missing : Finset String)
  /-- Requires one of: the joined permission list. -/
  | requiresOneOf (perms : List String)
  /-- Unable to verify admin status. -/
  | unableToVerifyAdmin
  /-- You must be an admin to use this command. -/
  | mustBeAdmin
  /-- Error verifying admin status. -/
  | errorVerifyingAdmin
  /-- Unable to verify access level. -/
  | unableToVerifyAccessLevel
  /-- This action requires the named access level. -/
  | accessLevelRequired (name : String)
  /-- Could not verify group admin status. -/
  | couldNotVerifyGroupAdmin
  /-- This command can only be used in groups. -/
  | onlyInGroups
  /-- You must be a group admin to use this command. -/
  | mustBeGroupAdmin
  /-- Could not verify ownership. -/
  | couldNotVerifyOwnership
  /-- Only the owner can execute this command. -/
  | ownerOnly
  /-- Only the group creator can execute this command. -/
  | creatorOnly
  /-- Error verifying ownership. -/
  | errorVerifyingOwnership
  /-- You are sending too many requests. Please wait a moment. -/
  | tooManyRequests
deriving DecidableEq

/-- Outcome of one wrapper invocation: whether the wrapped handler was
invoked, the replies sent, the session store afterwards, and how many
remote get_chat_member lookups were performed. -/
structure GuardResult where
  invoked : Bool
  replies : List Reply
  userData : UserData
  lookups : Nat
deriving DecidableEq

/-- require_authentication: deny when no caller is present, otherwise
record the caller id and username in the session store and invoke. -/
def require_authentication (user : Option User) (ud : UserData) : GuardResult :=
  match user with
  | none => ⟨false, [.authFailed], ud, 0⟩
  | some u =>
      ⟨true, [],
        { ud with
            authenticated_user_id := some u.id
            authenticated_user_username := some u.username }, 0⟩

/-- require_permission permission: deny when no caller; otherwise look up
the cached permission set (empty when absent) and pass iff the required
permission is a member. -/
def require_permission (permission : String) (user : Option User)
    (ud : UserData) : GuardResult :=
  match user with
  | none => ⟨false, [.notAuthorized], ud, 0⟩
  | some _ =>
      let user_permissions := ud.permissions.getD ∅
      if permission ∈ user_permissions then
        ⟨true, [], ud, 0⟩
      else
        ⟨false, [.missingPermission permission], ud, 0⟩

/-- require_permissions permissions require_all: deny when no caller;
otherwise with require_all pass iff set permissions is a subset of the
cached set, reporting the set difference on failure; without require_all
pass iff the intersection is nonempty, reporting the given list on
failure. -/
def require_permissions (permissions : List String) (require_all : Bool)
    (user : Option User) (ud : UserData) : GuardResult :=
  match user with
  | none => ⟨false, [.notAuthorized], ud, 0⟩
  | some _ =>
      let user_permissions := ud.permissions.getD ∅
      let required_set := permissions.toFinset
      let user_set := user_permissions
      if require_all then
        if required_set ⊆ user_set then
          ⟨true, [], ud, 0⟩
        else
          ⟨false, [.missingPermissions (required_set \ user_set)], ud, 0⟩
      else
        if (required_set ∩ user_set).Nonempty then
          ⟨true, [], ud, 0⟩
        else
          ⟨false, [.requiresOneOf permissions], ud, 0⟩

/-- The access-level label dictionary of require_access_level. -/
def level_names (l : Int) : Option String :=
  if l = 0 then some "User"
  else if l = 1 then some "Moderator"
  else if l = 2 then some "Administrator"
  else if l = 3 then some "Super Admin"
  else none

/-- require_access_level level: deny when no caller; otherwise read the
stored access level (0 when absent) and pass iff it is at least the
required level, naming the required level from the label dictionary on
failure (default label Unknown). -/
def require_access_level (level : Int) (user : Option User)
    (ud : UserData) : GuardResult :=
  match user with
  | none => ⟨false, [.unableToVerifyAccessLevel], ud, 0⟩
  | some _ =>
      let user_level := ud.access_level.getD 0
      if user_level < level then
        ⟨false, [.accessLevelRequired ((level_names level).getD "Unknown")], ud, 0⟩
      else
        ⟨true, [], ud, 0⟩

/-- require_admin: deny when caller or chat is absent; otherwise look up
the membership status remotely (the lookup may fail), pass iff the status
is creator or administrator, and convert a lookup failure into a denial
inside the wrapper. -/
def require_admin (user : Option User) (chat : Option Chat)
    (getChatMember : Int → Int → Except String MemberStatus)
    (ud : UserData) : Except String GuardResult :=
  match user, chat with
  | some u, some c =>
      match getChatMember c.id u.id with
      | .ok status =>
          if status = .creator ∨ status = .administrator then
            .ok ⟨true, [], ud, 1⟩
          else
            .ok ⟨false, [.mustBeAdmin], ud, 1⟩
      | .error _ => .ok ⟨false, [.errorVerifyingAdmin], ud, 1⟩
  | _, _ => .ok ⟨false, [.unableToVerifyAdmin], ud, 0⟩

/-- require_group_admin: deny when caller or chat is absent; deny when the
chat is not a group or supergroup, before any remote lookup; otherwise
look up the membership status remotely, pass iff the status is creator or
administrator, and convert a lookup failure into a denial. -/
def require_group_admin (user : Option User) (chat : Option Chat)
    (getChatMember : Int → Int → Except String MemberStatus)
    (ud : UserData) : Except String GuardResult :=
  match user, chat with
  | some u, some c =>
      if c.type ∉ [ChatType.group, ChatType.supergroup] then
        .ok ⟨false, [.onlyInGroups], ud, 0⟩
      else
        match getChatMember c.id u.id with
        | .ok status =>
            if status = .creator ∨ status = .administrator then
              .ok ⟨true, [], ud, 1⟩
            else
              .ok ⟨false, [.mustBeGroupAdmin], ud, 1⟩
        | .error _ => .ok ⟨false, [.errorVerifyingAdmin], ud, 1⟩
  | _, _ => .ok ⟨false, [.couldNotVerifyGroupAdmin], ud, 0⟩

/-- require_owner owner_id: deny when no caller; with a fixed owner id,
pass iff the caller id equals it; without one, when a chat is present
look up the membership status remotely and pass iff it is creator
(lookup failure becomes a denial), and when no chat is present fall
through to invoking the handler with no check at all. -/
def require_owner (owner_id : Option Int) (user : Option User)
    (chat : Option Chat)
    (getChatMember : Int → Int → Except String MemberStatus)
    (ud : UserData) : Except String GuardResult :=
  match user with
  | none => .ok ⟨false, [.couldNotVerifyOwnership], ud, 0⟩
  | some u =>
      match owner_id with
      | some oid =>
          if u.id ≠ oid then
            .ok ⟨false, [.ownerOnly], ud, 0⟩
          else
            .ok ⟨true, [], ud, 0⟩
      | none =>
          match chat with
          | some c =>
              match getChatMember c.id u.id with
              | .ok status =>
                  if status ≠ .creator then
                    .ok ⟨false, [.creatorOnly], ud, 1⟩
                  else
                    .ok ⟨true, [], ud, 1⟩
              | .error _ => .ok ⟨false, [.errorVerifyingOwnership], ud, 1⟩
          | none => .ok ⟨true, [], ud, 0⟩

/-- Association-list lookup modelling Python dict access on the
rate_limits store. -/
def lookupRL : List (String × List Int) → String → Option (List Int)
  | [], _ => none
  | (k, v) :: rest, key => if k = key then some v else lookupRL rest key

/-- Association-list update modelling Python dict assignment on the
rate_limits store. -/
def insertRL : List (String × List Int) → String → List Int → List (String × List Int)
  | [], key, v => [(key, v)]
  | (k, w) :: rest, key, v =>
      if k = key then (k, v) :: rest else (k, w) :: insertRL rest key v

/-- rate_limit max_calls period, applied to a handler named func_name, at
time now: when no caller is present, return silently with no reply;
otherwise fetch the timestamp list for this handler (creating empty
entries as the source does), keep only timestamps with now - t < period,
deny when at least max_calls remain (the pruned list is stored either
way), and otherwise append now and invoke. -/
def rate_limit (max_calls : Nat) (period : Int) (func_name : String)
    (user : Option User) (now : Int) (ud : UserData) : GuardResult :=
  match user with
  | none => ⟨false, [], ud, 0⟩
  | some _ =>
      let rl := ud.rate_limits.getD []
      let stored := (lookupRL rl func_name).getD []
      let calls := stored.filter (fun call_time => now - call_time < period)
      if max_calls ≤ calls.length then
        ⟨false, [.tooManyRequests],
          { ud with rate_limits := some (insertRL rl func_name calls) }, 0⟩
      else
        ⟨true, [],
          { ud with rate_limits := some (insertRL rl func_name (calls ++ [now])) }, 0⟩

/-- log_action action_type: formats an audit log line interpolating
user.id unconditionally; when the caller is absent this attribute access
on None raises, so the wrapper fails; otherwise it logs and invokes. -/
def log_action (action_type : String) (user : Option User)
    (chat : Option Chat) (ud : UserData) : Except String GuardResult :=
  match user with
  | none => .error "AttributeError: NoneType object has no attribute id"
  | some _ => .ok ⟨true, [], ud, 0⟩

/-- A concrete caller used in witness instantiations. -/
def u0 : User := ⟨1, none⟩

/-- Modelled from the spec wording of the rate-limit pruning rule, kept
for comparison with the implementation: the timestamps older than now
minus period are pruned, every other timestamp is kept. -/
def rateLimitPruneSpec (calls : List Int) (now period : Int) : List Int :=
  calls.filter (fun t => now - period ≤ t)

/-- The timestamp list stored for a handler name in a session store. -/
def rlCalls (ud : UserData) (func_name : String) : List Int :=
  (lookupRL (ud.rate_limits.getD []) func_name).getD []

/-- Iterated invocations of the rate-limit guard with max_calls 3 and
period 60 at the given times, collecting whether each invocation reached
the handler and threading the session store. -/
def rate_limit_seq (func_name : String) (u : User) :
    UserData → List Int → List Bool × UserData
  | ud, [] => ([], ud)
  | ud, t :: ts =>
      let r := rate_limit 3 60 func_name (some u) t ud
      let rest := rate_limit_seq func_name u r.userData ts
      (r.invoked :: rest.1, rest.2)

/-- A session store holding three timestamps at time 0 for handler h. -/
def udBoundary : UserData :=
  ⟨none, none, none, none, some [("h", [0, 0, 0])]⟩

/-- C1: for every caller with session permission set P and a
multi-permission guard over list R with require_all, the wrapped handler
is invoked iff the set of R is a subset of P, and on denial the failure
message reports exactly the set difference of the set of R minus P. -/
theorem require_permissions_all_correct (R : List String) (u : User) (ud : UserData) :
    ((require_permissions R true (some u) ud).invoked = true ↔
      R.toFinset ⊆ ud.permissions.getD ∅) ∧
    ((require_permissions R true (some u) ud).invoked = false →
      (require_permissions R true (some u) ud).replies =
        [.missingPermissions (R.toFinset \ ud.permissions.getD ∅)]) := by
  unfold require_permissions
  by_cases h : R.toFinset ⊆ ud.permissions.getD ∅ <;> simp [h]

/-- Witness for C1 at a concrete denying input: the empty session store
lacks both required permissions, so the guard reports both as missing. -/
theorem require_permissions_all_correct_witness :
    (require_permissions ["a", "b"] true (some u0) UserData.empty).replies =
      [.missingPermissions ((["a", "b"] : List String).toFinset \
        (UserData.empty.permissions.getD ∅))] :=
  (require_permissions_all_correct ["a", "b"] u0 UserData.empty).2 (by decide)

/-- C2: for every caller with session permission set P and a
multi-permission guard over list R without require_all, the wrapped
handler is invoked iff the set of R meets P, and on denial the failure
message reports the list R. -/
theorem require_permissions_any_correct (R : List String) (u : User) (ud : UserData) :
    ((require_permissions R false (some u) ud).invoked = true ↔
      R.toFinset ∩ ud.permissions.getD ∅ ≠ ∅) ∧
    ((require_permissions R false (some u) ud).invoked = false →
      (require_permissions R false (some u) ud).replies = [.requiresOneOf R]) := by
  unfold require_permissions
  rw [← Finset.nonempty_iff_ne_empty]
  by_cases h : (R.toFinset ∩ ud.permissions.getD ∅).Nonempty <;> simp [h]

/-- Witness for C2 at a concrete denying input: the empty session store
meets no required permission, so the guard reports the requested list. -/
theorem require_permissions_any_correct_witness :
    (require_permissions ["a", "b"] false (some u0) UserData.empty).replies =
      [.requiresOneOf ["a", "b"]] :=
  (require_permissions_any_correct ["a", "b"] u0 UserData.empty).2 (by decide)

/-- C3: for every present caller with session permission set P and a
single-permission guard requiring p, the wrapped handler is invoked iff
p is in P, on denial the reply names p, and a caller with no cached
permission set is denied with exactly that reply. -/
theorem require_permission_correct (p : String) (u : User) (ud : UserData) :
    ((require_permission p (some u) ud).invoked = true ↔ p ∈ ud.permissions.getD ∅) ∧
    ((require_permission p (some u) ud).invoked = false →
      (require_permission p (some u) ud).replies = [.missingPermission p]) ∧
    (ud.permissions = none →
      (require_permission p (some u) ud).invoked = false ∧
      (require_permission p (some u) ud).replies = [.missingPermission p]) := by
  unfold require_permission
  by_cases h : p ∈ ud.permissions.getD ∅
  · refine ⟨by simp [h], by simp [h], fun hn => ?_⟩
    rw [hn] at h
    simp at h
  · simp [h]

/-- Witness for C3: the spec scenario of a caller with no cached
permissions invoking a handler requiring delete_messages. -/
theorem require_permission_correct_witness :
    (require_permission "delete_messages" (some u0) UserData.empty).invoked = false ∧
    (require_permission "delete_messages" (some u0) UserData.empty).replies =
      [.missingPermission "delete_messages"] :=
  (require_permission_correct "delete_messages" u0 UserData.empty).2.2 rfl

/-- C4: for required level L and caller level U both between 0 and 3
(an absent stored level reads as 0), the access-level guard invokes the
wrapped handler iff U is at least L, and on denial the reply names the
required level through the fixed table 0 User, 1 Moderator,
2 Administrator, 3 Super Admin. -/
theorem require_access_level_correct (L : Int) (u : User) (ud : UserData)
    (hL0 : 0 ≤ L) (hL3 : L ≤ 3)
    (hU0 : 0 ≤ ud.access_level.getD 0) (hU3 : ud.access_level.getD 0 ≤ 3) :
    ((require_access_level L (some u) ud).invoked = true ↔
      L ≤ ud.access_level.getD 0) ∧
    (ud.access_level = none →
      ((require_access_level L (some u) ud).invoked = true ↔ L ≤ 0)) ∧
    ((require_access_level L (some u) ud).invoked = false →
      (require_access_level L (some u) ud).replies =
        [.accessLevelRequired
          (if L = 0 then "User"
           else if L = 1 then "Moderator"
           else if L = 2 then "Administrator"
           else "Super Admin")]) := by
  have hres : require_access_level L (some u) ud =
      if ud.access_level.getD 0 < L then
        ⟨false, [.accessLevelRequired ((level_names L).getD "Unknown")], ud, 0⟩
      else ⟨true, [], ud, 0⟩ := rfl
  refine ⟨?_, fun hn => ?_, fun hdeny => ?_⟩
  · rw [hres]
    by_cases h : ud.access_level.getD 0 < L
    · rw [if_pos h]
      exact iff_of_false (by simp) (by omega)
    · rw [if_neg h]
      exact iff_of_true rfl (by omega)
  · rw [hres, hn]
    simp only [Option.getD_none]
    by_cases h0 : (0 : Int) < L
    · rw [if_pos h0]
      exact iff_of_false (by simp) (by omega)
    · rw [if_neg h0]
      exact iff_of_true rfl (by omega)
  · rw [hres] at hdeny ⊢
    by_cases h : ud.access_level.getD 0 < L
    · rw [if_pos h]
      have hpos : 0 < L := lt_of_le_of_lt hU0 h
      have h123 : L = 1 ∨ L = 2 ∨ L = 3 := by omega
      rcases h123 with rfl | rfl | rfl
      · simp [level_names]
      · simp [level_names]
      · simp [level_names]
    · rw [if_neg h] at hdeny
      simp at hdeny

/-- Witness for C4 at a concrete denying input: a caller with no stored
level against required level 2 is denied naming Administrator. -/
theorem require_access_level_correct_witness :
    ((require_access_level 2 (some u0) UserData.empty).invoked = true ↔
      (2 : Int) ≤ UserData.empty.access_level.getD 0) ∧
    (UserData.empty.access_level = none →
      ((require_access_level 2 (some u0) UserData.empty).invoked = true ↔ (2 : Int) ≤ 0)) ∧
    ((require_access_level 2 (some u0) UserData.empty).invoked = false →
      (require_access_level 2 (some u0) UserData.empty).replies =
        [.accessLevelRequired
          (if (2 : Int) = 0 then "User"
           else if (2 : Int) = 1 then "Moderator"
           else if (2 : Int) = 2 then "Administrator"
           else "Super Admin")]) :=
  require_access_level_correct 2 u0 UserData.empty (by decide) (by decide) (by decide)
    (by decide)

/-- Updating the rate-limit store for a name and reading that name back
yields the written timestamp list. -/
theorem lookupRL_insertRL (m : List (String × List Int)) (k : String) (v : List Int) :
    lookupRL (insertRL m k v) k = some v := by
  induction m with
  | nil => simp [insertRL, lookupRL]
  | cons hd tl ih =>
      obtain ⟨k1, w⟩ := hd
      by_cases h : k1 = k
      · simp [insertRL, lookupRL, h]
      · simp [insertRL, lookupRL, h, ih]

/-- The rate-limit guard with a caller present, as one conditional. -/
theorem rate_limit_some (mc : Nat) (p : Int) (name : String) (u : User)
    (now : Int) (ud : UserData) :
    rate_limit mc p name (some u) now ud =
      if mc ≤ ((rlCalls ud name).filter (fun t => now - t < p)).length then
        ⟨false, [.tooManyRequests],
          { ud with rate_limits := some (insertRL (ud.rate_limits.getD []) name
              ((rlCalls ud name).filter (fun t => now - t < p))) }, 0⟩
      else
        ⟨true, [],
          { ud with rate_limits := some (insertRL (ud.rate_limits.getD []) name
              ((rlCalls ud name).filter (fun t => now - t < p) ++ [now])) }, 0⟩ := rfl

/-- The single-permission guard with a caller present, as one conditional. -/
theorem require_permission_some (p : String) (u : User) (ud : UserData) :
    require_permission p (some u) ud =
      if p ∈ ud.permissions.getD ∅ then ⟨true, [], ud, 0⟩
      else ⟨false, [.missingPermission p], ud, 0⟩ := rfl

/-- The multi-permission guard with a caller present, as conditionals. -/
theorem require_permissions_some (R : List String) (b : Bool) (u : User)
    (ud : UserData) :
    require_permissions R b (some u) ud =
      if b then
        (if R.toFinset ⊆ ud.permissions.getD ∅ then ⟨true, [], ud, 0⟩
         else ⟨false, [.missingPermissions (R.toFinset \ ud.permissions.getD ∅)], ud, 0⟩)
      else
        (if (R.toFinset ∩ ud.permissions.getD ∅).Nonempty then ⟨true, [], ud, 0⟩
         else ⟨false, [.requiresOneOf R], ud, 0⟩) := rfl

/-- The access-level guard with a caller present, as one conditional. -/
theorem require_access_level_some (L : Int) (u : User) (ud : UserData) :
    require_access_level L (some u) ud =
      if ud.access_level.getD 0 < L then
        ⟨false, [.accessLevelRequired ((level_names L).getD "Unknown")], ud, 0⟩
      else ⟨true, [], ud, 0⟩ := rfl

/-- The admin guard with caller and chat present, as a match on the
remote lookup result. -/
theorem require_admin_some (u : User) (c : Chat)
    (gcm : Int → Int → Except String MemberStatus) (ud : UserData) :
    require_admin (some u) (some c) gcm ud =
      match gcm c.id u.id with
      | .ok status =>
          if status = .creator ∨ status = .administrator then
            .ok ⟨true, [], ud, 1⟩
          else .ok ⟨false, [.mustBeAdmin], ud, 1⟩
      | .error _ => .ok ⟨false, [.errorVerifyingAdmin], ud, 1⟩ := rfl

/-- The group-admin guard with caller and chat present, as the chat-kind
conditional followed by a match on the remote lookup result. -/
theorem require_group_admin_some (u : User) (c : Chat)
    (gcm : Int → Int → Except String MemberStatus) (ud : UserData) :
    require_group_admin (some u) (some c) gcm ud =
      if c.type ∉ [ChatType.group, ChatType.supergroup] then
        .ok ⟨false, [.onlyInGroups], ud, 0⟩
      else
        match gcm c.id u.id with
        | .ok status =>
            if status = .creator ∨ status = .administrator then
              .ok ⟨true, [], ud, 1⟩
            else .ok ⟨false, [.mustBeGroupAdmin], ud, 1⟩
        | .error _ => .ok ⟨false, [.errorVerifyingAdmin], ud, 1⟩ := rfl

/-- The owner guard without a fixed owner id, with caller and chat
present, as a match on the remote lookup result. -/
theorem require_owner_lookup (u : User) (c : Chat)
    (gcm : Int → Int → Except String MemberStatus) (ud : UserData) :
    require_owner none (some u) (some c) gcm ud =
      match gcm c.id u.id with
      | .ok status =>
          if status ≠ .creator then .ok ⟨false, [.creatorOnly], ud, 1⟩
          else .ok ⟨true, [], ud, 1⟩
      | .error _ => .ok ⟨false, [.errorVerifyingOwnership], ud, 1⟩ := rfl

/-- C5 counterexample: at time 60 with three timestamps stored at time 0,
pruning only the timestamps older than now minus 60, as the claim words
it, leaves all three in place, so the claim prescribes denial; the
implementation instead prunes the three boundary timestamps, of age
exactly 60, and invokes the handler. -/
theorem rate_limit_claim_counterexample :
    3 ≤ (rateLimitPruneSpec [0, 0, 0] 60 60).length ∧
    (rate_limit 3 60 "h" (some u0) 60 udBoundary).invoked = true := by decide

/-- C5 amended: for the rate-limit guard with max_calls 3 and period 60
and a caller present, the timestamps of age at least 60 seconds are
pruned first and exactly they, the call is denied iff at least 3
timestamps remain, the current timestamp is recorded otherwise with the
pruned history stored either way, the stored history never exceeds 3
timestamps after an invocation starting from at most 3, and in the
concrete run at times 0, 10, 20 and 30 the first three calls pass and
the fourth inside the window is denied, while the call at time 61, the
oldest timestamp having aged past 60 seconds, is admitted with exactly
the timestamps 10, 20 and 61 stored. -/
theorem rate_limit_correct :
    (∀ (u : User) (ud : UserData) (now : Int) (name : String),
      (rate_limit 3 60 name (some u) now ud).invoked = false ↔
        3 ≤ ((rlCalls ud name).filter (fun t => now - t < 60)).length) ∧
    (∀ (ud : UserData) (now : Int) (name : String),
      (rlCalls ud name).filter (fun t => now - t < 60) =
        (rlCalls ud name).filter (fun t => !decide (60 ≤ now - t))) ∧
    (∀ (u : User) (ud : UserData) (now : Int) (name : String),
      (rate_limit 3 60 name (some u) now ud).invoked = true →
        rlCalls (rate_limit 3 60 name (some u) now ud).userData name =
          (rlCalls ud name).filter (fun t => now - t < 60) ++ [now]) ∧
    (∀ (u : User) (ud : UserData) (now : Int) (name : String),
      (rate_limit 3 60 name (some u) now ud).invoked = false →
        (rate_limit 3 60 name (some u) now ud).replies = [.tooManyRequests] ∧
        rlCalls (rate_limit 3 60 name (some u) now ud).userData name =
          (rlCalls ud name).filter (fun t => now - t < 60)) ∧
    (∀ (u : User) (ud : UserData) (now : Int) (name : String),
      (rlCalls ud name).length ≤ 3 →
        (rlCalls (rate_limit 3 60 name (some u) now ud).userData name).length ≤ 3) ∧
    ((rate_limit_seq "h" u0 UserData.empty [0, 10, 20, 30, 61]).1 =
        [true, true, true, false, true] ∧
      rlCalls (rate_limit_seq "h" u0 UserData.empty [0, 10, 20, 30, 61]).2 "h" =
        [10, 20, 61]) := by
  refine ⟨?_, ?_, ?_, ?_, ?_, by decide⟩
  · intro u ud now name
    rw [rate_limit_some]
    by_cases hc : 3 ≤ ((rlCalls ud name).filter (fun t => now - t < 60)).length
    · rw [if_pos hc]
      exact iff_of_true rfl hc
    · rw [if_neg hc]
      exact iff_of_false (by simp) hc
  · intro ud now name
    refine List.filter_congr fun t _ => ?_
    by_cases h : now - t < 60
    · simp [h, show ¬ (60 ≤ now - t) from by omega]
    · simp [h, show 60 ≤ now - t from by omega]
  · intro u ud now name hinv
    rw [rate_limit_some] at hinv ⊢
    by_cases hc : 3 ≤ ((rlCalls ud name).filter (fun t => now - t < 60)).length
    · rw [if_pos hc] at hinv
      simp at hinv
    · rw [if_neg hc]
      simp only [rlCalls, Option.getD_some]
      rw [lookupRL_insertRL]
      rfl
  · intro u ud now name hinv
    rw [rate_limit_some] at hinv ⊢
    by_cases hc : 3 ≤ ((rlCalls ud name).filter (fun t => now - t < 60)).length
    · rw [if_pos hc]
      refine ⟨rfl, ?_⟩
      simp only [rlCalls, Option.getD_some]
      rw [lookupRL_insertRL]
      rfl
    · rw [if_neg hc] at hinv
      simp at hinv
  · intro u ud now name hlen
    rw [rate_limit_some]
    by_cases hc : 3 ≤ ((rlCalls ud name).filter (fun t => now - t < 60)).length
    · rw [if_pos hc]
      simp only [rlCalls, Option.getD_some]
      rw [lookupRL_insertRL]
      calc ((lookupRL (ud.rate_limits.getD []) name).getD [] |>.filter
              (fun t => now - t < 60)).length
          ≤ ((lookupRL (ud.rate_limits.getD []) name).getD []).length :=
            List.length_filter_le _ _
        _ ≤ 3 := hlen
    · rw [if_neg hc]
      simp only [rlCalls, Option.getD_some] at hc ⊢
      rw [lookupRL_insertRL]
      simp only [Option.getD_some, List.length_append, List.length_cons,
        List.length_nil]
      omega

/-- Witness for C5 applying the bound conjunct at a concrete input: from
an empty history an invocation at time 0 leaves at most 3 timestamps. -/
theorem rate_limit_correct_witness :
    (rlCalls UserData.empty "h").length ≤ 3 ∧
    (rlCalls (rate_limit 3 60 "h" (some u0) 0 UserData.empty).userData "h").length ≤ 3 :=
  ⟨by decide, rate_limit_correct.2.2.2.2.1 u0 UserData.empty 0 "h" (by decide)⟩

/-- C6: a group-admin guard invocation whose chat kind is neither group
nor supergroup is denied with the wrong-chat-kind reply and performs no
remote membership lookup, the chat-kind check coming before the lookup. -/
theorem require_group_admin_wrong_chat (u : User) (c : Chat) (ud : UserData)
    (gcm : Int → Int → Except String MemberStatus)
    (h : c.type ≠ ChatType.group ∧ c.type ≠ ChatType.supergroup) :
    require_group_admin (some u) (some c) gcm ud =
      .ok ⟨false, [.onlyInGroups], ud, 0⟩ := by
  have hm : c.type ∉ [ChatType.group, ChatType.supergroup] := by simp [h.1, h.2]
  rw [require_group_admin_some, if_pos hm]

/-- Witness for C6: a private chat is denied for wrong chat kind with no
lookup, whatever the lookup would have answered. -/
theorem require_group_admin_wrong_chat_witness :
    require_group_admin (some u0) (some ⟨5, ChatType.privateChat⟩)
        (fun _ _ => .ok .member) UserData.empty =
      .ok ⟨false, [.onlyInGroups], UserData.empty, 0⟩ :=
  require_group_admin_wrong_chat u0 ⟨5, ChatType.privateChat⟩ UserData.empty
    (fun _ _ => .ok .member) (by decide)

/-- C7: when the remote membership lookup fails, each of the admin,
group-admin, and owner guards catches the failure inside the wrapper and
returns normally, denying with its fixed error-verifying reply and never
invoking the wrapped handler.  The admin and owner guards perform the
lookup for every chat kind; the group-admin guard reaches its lookup only
in a group or supergroup chat. -/
theorem lookup_error_caught (u : User) (c : Chat) (ud : UserData)
    (gcm : Int → Int → Except String MemberStatus) (e : String)
    (herr : gcm c.id u.id = .error e) :
    require_admin (some u) (some c) gcm ud =
      .ok ⟨false, [.errorVerifyingAdmin], ud, 1⟩ ∧
    (c.type = ChatType.group ∨ c.type = ChatType.supergroup →
      require_group_admin (some u) (some c) gcm ud =
        .ok ⟨false, [.errorVerifyingAdmin], ud, 1⟩) ∧
    require_owner none (some u) (some c) gcm ud =
      .ok ⟨false, [.errorVerifyingOwnership], ud, 1⟩ := by
  refine ⟨?_, fun hkind => ?_, ?_⟩
  · rw [require_admin_some, herr]
  · have hm : ¬ c.type ∉ [ChatType.group, ChatType.supergroup] := by
      rcases hkind with h | h <;> simp [h]
    rw [require_group_admin_some, if_neg hm, herr]
  · rw [require_owner_lookup, herr]

/-- Witness for C7: a lookup that always fails makes the admin and owner
guards deny with their error-verifying replies in a private chat, and all
three guards deny likewise in a group chat. -/
theorem lookup_error_caught_witness :
    (require_admin (some u0) (some ⟨9, ChatType.privateChat⟩)
        (fun _ _ => .error "boom") UserData.empty =
      .ok ⟨false, [.errorVerifyingAdmin], UserData.empty, 1⟩ ∧
     require_owner none (some u0) (some ⟨9, ChatType.privateChat⟩)
        (fun _ _ => .error "boom") UserData.empty =
      .ok ⟨false, [.errorVerifyingOwnership], UserData.empty, 1⟩) ∧
    require_admin (some u0) (some ⟨7, ChatType.group⟩)
        (fun _ _ => .error "boom") UserData.empty =
      .ok ⟨false, [.errorVerifyingAdmin], UserData.empty, 1⟩ ∧
    require_group_admin (some u0) (some ⟨7, ChatType.group⟩)
        (fun _ _ => .error "boom") UserData.empty =
      .ok ⟨false, [.errorVerifyingAdmin], UserData.empty, 1⟩ ∧
    require_owner none (some u0) (some ⟨7, ChatType.group⟩)
        (fun _ _ => .error "boom") UserData.empty =
      .ok ⟨false, [.errorVerifyingOwnership], UserData.empty, 1⟩ :=
  ⟨⟨(lookup_error_caught u0 ⟨9, ChatType.privateChat⟩ UserData.empty
      (fun _ _ => .error "boom") "boom" rfl).1,
    (lookup_error_caught u0 ⟨9, ChatType.privateChat⟩ UserData.empty
      (fun _ _ => .error "boom") "boom" rfl).2.2⟩,
   (lookup_error_caught u0 ⟨7, ChatType.group⟩ UserData.empty
      (fun _ _ => .error "boom") "boom" rfl).1,
   (lookup_error_caught u0 ⟨7, ChatType.group⟩ UserData.empty
      (fun _ _ => .error "boom") "boom" rfl).2.1 (.inl rfl),
   (lookup_error_caught u0 ⟨7, ChatType.group⟩ UserData.empty
      (fun _ _ => .error "boom") "boom" rfl).2.2⟩

/-- C10: the owner guard configured without a fixed owner id, invoked
with a caller present but no chat, performs no ownership check at all:
no remote lookup occurs, no reply is sent, the outcome is the same for
every caller and every lookup, and the wrapped handler is invoked. -/
theorem require_owner_no_chat_bypass (u : User) (ud : UserData)
    (gcm : Int → Int → Except String MemberStatus) :
    require_owner none (some u) none gcm ud = .ok ⟨true, [], ud, 0⟩ := rfl

/-- C8 counterexample: the rate-limit guard with the caller absent from
the update returns without invoking the handler and without sending any
reply, so not every guard sends a generic denial message when the caller
is missing. -/
theorem missing_caller_silent_counterexample :
    (rate_limit 5 60 "handler" none 0 UserData.empty).invoked = false ∧
    (rate_limit 5 60 "handler" none 0 UserData.empty).replies = [] := by decide

/-- C8 amended: with the caller absent, or the chat absent where one is
required, the authentication, permission, multi-permission, admin,
access-level, group-admin, and owner guards each deny non-fatally with a
generic reply and do not invoke the handler; the rate-limit guard
returns silently with no reply at all; and the action-log guard fails,
its log line dereferencing the absent caller. -/
theorem missing_identity_behavior :
    (∀ ud, require_authentication none ud = ⟨false, [.authFailed], ud, 0⟩) ∧
    (∀ p ud, require_permission p none ud = ⟨false, [.notAuthorized], ud, 0⟩) ∧
    (∀ R b ud, require_permissions R b none ud = ⟨false, [.notAuthorized], ud, 0⟩) ∧
    (∀ chat gcm ud, require_admin none chat gcm ud =
      .ok ⟨false, [.unableToVerifyAdmin], ud, 0⟩) ∧
    (∀ u gcm ud, require_admin (some u) none gcm ud =
      .ok ⟨false, [.unableToVerifyAdmin], ud, 0⟩) ∧
    (∀ L ud, require_access_level L none ud =
      ⟨false, [.unableToVerifyAccessLevel], ud, 0⟩) ∧
    (∀ chat gcm ud, require_group_admin none chat gcm ud =
      .ok ⟨false, [.couldNotVerifyGroupAdmin], ud, 0⟩) ∧
    (∀ u gcm ud, require_group_admin (some u) none gcm ud =
      .ok ⟨false, [.couldNotVerifyGroupAdmin], ud, 0⟩) ∧
    (∀ oid chat gcm ud, require_owner oid none chat gcm ud =
      .ok ⟨false, [.couldNotVerifyOwnership], ud, 0⟩) ∧
    (∀ mc p nm now ud, rate_limit mc p nm none now ud = ⟨false, [], ud, 0⟩) ∧
    (∀ a chat ud, log_action a none chat ud =
      .error "AttributeError: NoneType object has no attribute id") := by
  refine ⟨fun ud => rfl, fun p ud => rfl, fun R b ud => rfl, ?_,
    fun u gcm ud => rfl, fun L ud => rfl, ?_, fun u gcm ud => rfl,
    fun oid chat gcm ud => rfl, fun mc p nm now ud => rfl, fun a chat ud => rfl⟩
  · intro chat gcm ud
    cases chat <;> rfl
  · intro chat gcm ud
    cases chat <;> rfl

/-- C9 counterexample: on a missing caller the rate-limit guard reaches
a deny outcome, the handler is not invoked, and yet no user-visible
reply is produced by that denial. -/
theorem deny_without_reply_counterexample :
    (rate_limit 3 60 "cmd" none 7 UserData.empty).invoked = false ∧
    (rate_limit 3 60 "cmd" none 7 UserData.empty).replies = [] := by decide

/-- C9 amended: whenever a guard denies, that is, terminates without
invoking the wrapped handler, the handler does not run, and the denial
produces a user-visible reply in every case except the rate-limit guard
returning on a missing caller; the action-log guard never denies, since
whenever it returns normally it invokes the handler. -/
theorem deny_produces_reply :
    (∀ user ud, (require_authentication user ud).invoked = false →
      (require_authentication user ud).replies ≠ []) ∧
    (∀ p user ud, (require_permission p user ud).invoked = false →
      (require_permission p user ud).replies ≠ []) ∧
    (∀ R b user ud, (require_permissions R b user ud).invoked = false →
      (require_permissions R b user ud).replies ≠ []) ∧
    (∀ L user ud, (require_access_level L user ud).invoked = false →
      (require_access_level L user ud).replies ≠ []) ∧
    (∀ user chat gcm ud r, require_admin user chat gcm ud = .ok r →
      r.invoked = false → r.replies ≠ []) ∧
    (∀ user chat gcm ud r, require_group_admin user chat gcm ud = .ok r →
      r.invoked = false → r.replies ≠ []) ∧
    (∀ oid user chat gcm ud r, require_owner oid user chat gcm ud = .ok r →
      r.invoked = false → r.replies ≠ []) ∧
    (∀ mc p nm u now ud, (rate_limit mc p nm (some u) now ud).invoked = false →
      (rate_limit mc p nm (some u) now ud).replies ≠ []) ∧
    (∀ a user chat ud r, log_action a user chat ud = .ok r → r.invoked = true) := by
  refine ⟨?_, ?_, ?_, ?_, ?_, ?_, ?_, ?_, ?_⟩
  · intro user ud
    cases user <;> simp [require_authentication]
  · intro p user ud
    cases user
    · simp [require_permission]
    · rw [require_permission_some]
      split_ifs <;> simp
  · intro R b user ud
    cases user
    · simp [require_permissions]
    · rw [require_permissions_some]
      split_ifs <;> simp
  · intro L user ud
    cases user
    · simp [require_access_level]
    · rw [require_access_level_some]
      split_ifs <;> simp
  · intro user chat gcm ud r hr hinv
    unfold require_admin at hr
    repeat' split at hr
    all_goals
      simp only [Except.ok.injEq] at hr
    all_goals subst hr
    all_goals simp_all
  · intro user chat gcm ud r hr hinv
    unfold require_group_admin at hr
    repeat' split at hr
    all_goals
      simp only [Except.ok.injEq] at hr
    all_goals subst hr
    all_goals simp_all
  · intro oid user chat gcm ud r hr hinv
    unfold require_owner at hr
    repeat' split at hr
    all_goals
      simp only [Except.ok.injEq] at hr
    all_goals subst hr
    all_goals simp_all
  · intro mc p nm u now ud
    rw [rate_limit_some]
    split_ifs <;> simp
  · intro a user chat ud r hr
    cases user
    · simp [log_action] at hr
    · simp only [log_action, Except.ok.injEq] at hr
      subst hr
      rfl

/-- Witness for C9 applying the single-permission conjunct at a concrete
denying input: the denial carries a nonempty reply list. -/
theorem deny_produces_reply_witness :
    (require_permission "x" (some u0) UserData.empty).replies ≠ [] :=
  deny_produces_reply.2.1 "x" (some u0) UserData.empty (by decide)
